import Mathlib

/-!
# Region decoding glue: `libs/hwui/jni/BitmapRegionDecoder.cpp`

A shallow embedding of the JNI entry points `nativeDecodeRegion`,
`nativeNewInstanceFromFileDescriptor` and `createBitmapRegionDecoder`.

The C++ functions talk to many collaborators that live outside the file
(Skia, the JNI environment, `GraphicsJNI`, the hardware uploader).  Every such
collaborator is a field of the record `Runtime`, so each theorem below holds for
every behaviour the collaborators may have.  Effects that the claims speak about
(log lines, calls of `decodeRegion`, calls that touch the reusable bitmap, thrown
exceptions) are recorded, in program order, in a list of `Event`s.
-/

namespace HwuiJni

/-! ## Data model -/

/-- Skia colour types (`SkColorType`, declared in Skia's `SkColorType.h`). -/
inductive SkColorType
  | kUnknown_SkColorType
  | kAlpha_8_SkColorType
  | kRGB_565_SkColorType
  | kARGB_4444_SkColorType
  | kRGBA_8888_SkColorType
  | kRGB_888x_SkColorType
  | kBGRA_8888_SkColorType
  | kRGBA_1010102_SkColorType
  | kBGRA_1010102_SkColorType
  | kRGB_101010x_SkColorType
  | kBGR_101010x_SkColorType
  | kGray_8_SkColorType
  | kRGBA_F16Norm_SkColorType
  | kRGBA_F16_SkColorType
  | kRGBA_F32_SkColorType
  deriving DecidableEq, Repr

open SkColorType

/-- The native 32-bit colour type.  On Android `kN32_SkColorType` is the alias of
`kRGBA_8888_SkColorType` (Skia's `SkColorType.h`). -/
def kN32_SkColorType : SkColorType := kRGBA_8888_SkColorType

/-- The result of `SkIRect::MakeXYWH(x, y, w, h)`, kept as the four arguments it was
built from. -/
structure SkIRect where
  x : Int
  y : Int
  w : Int
  h : Int
  deriving DecidableEq, Repr

/-- The function `SkIRect::MakeXYWH`. -/
def SkIRect.MakeXYWH (x y w h : Int) : SkIRect := ⟨x, y, w, h⟩

/-- An `sk_sp<SkColorSpace>`: a nullable reference to a native colour space. -/
abbrev SkColorSpaceRef := Option Nat

/-- The part of `SkImageInfo` the glue code reads. -/
structure SkImageInfo where
  colorType : SkColorType
  width : Int
  height : Int
  deriving DecidableEq, Repr

/-- The `SkBitmap` filled in by `decodeRegion`. -/
structure SkBitmap where
  width : Int
  height : Int
  deriving DecidableEq, Repr

/-- A native `android::Bitmap`, as far as `nativeDecodeRegion` inspects it. -/
structure Bitmap where
  info : SkImageInfo
  isImmutable : Bool
  getAllocationByteCount : Nat
  deriving DecidableEq, Repr

/-- The native pixel owner handed to `bitmap::createBitmap`: either the storage
object taken from the heap allocator (`heapAlloc.getStorageObjAndReset()`) or the
result of `Bitmap::allocateHardwareBitmap(bitmap)`. -/
inductive NativePixels
  | heapStorage (decoded : SkBitmap)
  | hardwareBitmap (decoded : SkBitmap)
  deriving DecidableEq, Repr

/-- A non-null Java reference, named by a number. -/
abbrev JavaObject := Nat

/-- A JNI `jobject`; `none` is the null reference. -/
abbrev jobject := Option JavaObject

/-- The Java object `BitmapFactory.Options` (the fields read or written here). -/
structure Options where
  inSampleSize : Int
  inPreferredConfig : jobject
  inPremultiplied : Bool
  inBitmap : jobject
  outWidth : Int
  outHeight : Int
  outMimeType : jobject
  outConfig : jobject
  outColorSpace : jobject
  deriving DecidableEq, Repr

/-- The two `skia::BRDAllocator`s of `nativeDecodeRegion`: the
`RecyclingClippingPixelAllocator` (built from the pointer to the recycled bitmap,
here its handle, and its byte capacity) and the `HeapAllocator`. -/
inductive BRDAllocator
  | recycleAlloc (recycledBitmap : Option Int) (recycledBytes : Nat)
  | heapAlloc
  deriving DecidableEq, Repr

/-- The argument list of one call of `brd->decodeRegion`. -/
structure DecodeRegionArgs where
  allocator : BRDAllocator
  subset : SkIRect
  sampleSize : Int
  colorType : SkColorType
  requireUnpremul : Bool
  colorSpace : SkColorSpaceRef
  deriving DecidableEq, Repr

/-- Observable effects, in program order. -/
inductive Event
  | logW (msg : String)
  | doThrowNPE
  | doThrowIOE (msg : String)
  | fstat (descriptor : Int)
  | makeFromFD (descriptor : Int)
  | brdMake (data : Option (List Nat))
  | decodeRegion (args : DecodeRegionArgs)
  | copyIfNecessary (allocator : BRDAllocator)
  | reinitBitmap (javaBitmap : JavaObject) (info : SkImageInfo) (isPremultiplied : Bool)
  | allocateHardwareBitmap (decoded : SkBitmap)
  | getStorageObjAndReset
  | createBitmap (pixels : NativePixels) (bitmapCreateFlags : Nat)
  | createJavaRegionDecoder (brd : Nat)
  | nativeClean (brdHandle : Int)
  deriving DecidableEq, Repr

/-- The virtual interface of `skia::BitmapRegionDecoder`.  `decodeRegion` returns
`none` where the C++ method returns `false`, and the filled bitmap otherwise. -/
structure BitmapRegionDecoder where
  computeOutputColorType : SkColorType → SkColorType
  computeOutputColorSpace : SkColorType → SkColorSpaceRef → SkColorSpaceRef
  decodeRegion : DecodeRegionArgs → Option SkBitmap
  getEncodedFormat : Nat

/-- Everything outside the file that the JNI functions consult. -/
structure Runtime where
  /-- The cast `reinterpret_cast<skia::BitmapRegionDecoder*>(brdHandle)`. -/
  toBrd : Int → BitmapRegionDecoder
  /-- The function `bitmap::toBitmap(handle)`. -/
  toBitmap : Int → Bitmap
  getNativeColorSpace : Int → SkColorSpaceRef
  getNativeBitmapColorType : jobject → SkColorType
  isHardwareConfig : jobject → Bool
  hasFP16Support : Bool
  has1010102Support : Bool
  /-- The function `getMimeTypeAsJavaString`: the string (null is a legal value) and
  whether a Java exception is pending afterwards. -/
  getMimeTypeAsJavaString : Nat → jobject × Bool
  colorTypeToLegacyBitmapConfig : SkColorType → Int
  kHardware_LegacyBitmapConfig : Int
  /-- The static Java method `Bitmap.Config.nativeToConfig`. -/
  nativeToConfig : Int → jobject
  getColorSpace : SkColorSpaceRef → SkColorType → jobject
  kBitmapCreateFlag_Premultiplied : Nat
  /-- The function `bitmap::createBitmap`: the Java bitmap it returns. -/
  createBitmap : NativePixels → Nat → jobject
  jniGetFDFromFileDescriptor : JavaObject → Int
  /-- The system call `fstat(descriptor, &fdStat)`: its return value. -/
  fstat : Int → Int
  /-- The function `SkData::MakeFromFD`. -/
  makeFromFD : Int → Option (List Nat)
  /-- The factory `skia::BitmapRegionDecoder::Make`; `none` is the empty pointer. -/
  brdMake : Option (List Nat) → Option Nat
  /-- The wrapper `GraphicsJNI::createBitmapRegionDecoder`: the Java object it returns
  and whether a Java exception is pending afterwards. -/
  createJavaRegionDecoder : Nat → jobject × Bool

/-- What a JNI entry point leaves behind: the returned reference, the options
object after the call (when one was passed), whether a Java exception is pending,
and the effects. -/
structure JNIResult where
  ret : jobject
  options : Option Options
  exceptionPending : Bool
  trace : List Event
  deriving DecidableEq, Repr

/-! ## The JNI functions -/

/-- The helper `nullObjectReturn(msg)`: the null reference (its message only goes to
the debug output). -/
def nullObjectReturn (_msg : String) : jobject := none

/-- The local variables `sampleSize`, `colorType`, `requireUnpremul`, `javaBitmap`
and `isHardware` of `nativeDecodeRegion` once the options block (source lines
100-125) has run. -/
structure DecodeLocals where
  sampleSize : Int
  colorType : SkColorType
  requireUnpremul : Bool
  javaBitmap : jobject
  isHardware : Bool
  deriving DecidableEq, Repr

/-- Source lines 100-116 of `nativeDecodeRegion`: the defaults, replaced by the
client's values when `options` is not null. -/
def readOptions (env : Runtime) (options : Option Options) : DecodeLocals :=
  match options with
  | none =>
    { sampleSize := 1, colorType := kN32_SkColorType, requireUnpremul := false,
      javaBitmap := none, isHardware := false }
  | some o =>
    { sampleSize := o.inSampleSize,
      colorType := env.getNativeBitmapColorType o.inPreferredConfig,
      requireUnpremul := !o.inPremultiplied,
      javaBitmap := o.inBitmap,
      isHardware := env.isHardwareConfig o.inPreferredConfig }

/-- Source lines 118-124 of `nativeDecodeRegion`: the five output fields are set to
the values that indicate a failure. -/
def initFailure (o : Options) : Options :=
  { o with outWidth := -1, outHeight := -1, outMimeType := none, outConfig := none,
           outColorSpace := none }

/-- Source lines 141-150 of `nativeDecodeRegion`: the two capability checks made
when the hardware config was requested. -/
def hardwareFallback (env : Runtime) (isHardware : Bool) (decodeColorType : SkColorType) :
    SkColorType :=
  if isHardware then
    let c1 :=
      if decodeColorType = kRGBA_F16_SkColorType ∧ env.hasFP16Support = false then
        kN32_SkColorType
      else decodeColorType
    if c1 = kRGBA_1010102_SkColorType ∧ env.has1010102Support = false then
      kN32_SkColorType
    else c1
  else decodeColorType

/-- Source lines 175-196 of `nativeDecodeRegion`, for a non-null `options`: the
metadata of a successful decode is written field by field.  The result is the
options object and whether the function returns early because an exception is
pending after the MIME string was built (line 182). -/
def writeSuccess (env : Runtime) (brd : BitmapRegionDecoder) (isHardware : Bool)
    (decodeColorType : SkColorType) (decodeColorSpace : SkColorSpaceRef) (bitmap : SkBitmap)
    (o : Options) : Options × Bool :=
  let o1 := { o with outWidth := bitmap.width }
  let o2 := { o1 with outHeight := bitmap.height }
  let mime := env.getMimeTypeAsJavaString brd.getEncodedFormat
  let o3 := { o2 with outMimeType := mime.1 }
  if mime.2 then
    (o3, true)
  else
    let configID :=
      if isHardware then env.kHardware_LegacyBitmapConfig
      else env.colorTypeToLegacyBitmapConfig decodeColorType
    let config := env.nativeToConfig configID
    let o4 := { o3 with outConfig := config }
    ({ o4 with outColorSpace := env.getColorSpace decodeColorSpace decodeColorType }, false)

/-- Source lines 198-213 of `nativeDecodeRegion`: the object handed back after a
successful decode, with the effects of producing it. -/
def finishDecode (env : Runtime) (l : DecodeLocals) (allocator : BRDAllocator)
    (recycledInfo : SkImageInfo) (bitmap : SkBitmap) : jobject × List Event :=
  match l.javaBitmap with
  | some jb =>
    (some jb,
     [Event.copyIfNecessary allocator, Event.reinitBitmap jb recycledInfo (!l.requireUnpremul)])
  | none =>
    let bitmapCreateFlags : Nat :=
      if l.requireUnpremul then 0 else 0 ||| env.kBitmapCreateFlag_Premultiplied
    if l.isHardware then
      (env.createBitmap (NativePixels.hardwareBitmap bitmap) bitmapCreateFlags,
       [Event.allocateHardwareBitmap bitmap,
        Event.createBitmap (NativePixels.hardwareBitmap bitmap) bitmapCreateFlags])
    else
      (env.createBitmap (NativePixels.heapStorage bitmap) bitmapCreateFlags,
       [Event.getStorageObjAndReset,
        Event.createBitmap (NativePixels.heapStorage bitmap) bitmapCreateFlags])

/-- The function `nativeDecodeRegion` (source lines 96-214). -/
def nativeDecodeRegion (env : Runtime) (brdHandle : Int)
    (inputX inputY inputWidth inputHeight : Int) (options : Option Options)
    (inBitmapHandle colorSpaceHandle : Int) : JNIResult :=
  -- Set default options; update them with any options supplied by the client.
  let colorSpace := env.getNativeColorSpace colorSpaceHandle
  let l := readOptions env options
  let options := options.map initFailure
  -- Recycle a bitmap if possible.
  let recycledBitmap : Option Int := if l.javaBitmap.isSome then some inBitmapHandle else none
  let warn : List Event :=
    if l.javaBitmap.isSome ∧ (env.toBitmap inBitmapHandle).isImmutable then
      [Event.logW "Warning: Reusing an immutable bitmap as an image decoder target."]
    else []
  let recycledBytes : Nat :=
    if l.javaBitmap.isSome then (env.toBitmap inBitmapHandle).getAllocationByteCount else 0
  let brd := env.toBrd brdHandle
  let decodeColorType := brd.computeOutputColorType l.colorType
  let decodeColorType := hardwareFallback env l.isHardware decodeColorType
  -- Set up the pixel allocator.
  let allocator : BRDAllocator :=
    if l.javaBitmap.isSome then BRDAllocator.recycleAlloc recycledBitmap recycledBytes
    else BRDAllocator.heapAlloc
  -- We are required to match the color type of the recycled bitmap.
  let decodeColorType :=
    if l.javaBitmap.isSome then (env.toBitmap inBitmapHandle).info.colorType
    else decodeColorType
  let decodeColorSpace := brd.computeOutputColorSpace decodeColorType colorSpace
  -- Decode the region.
  let subset := SkIRect.MakeXYWH inputX inputY inputWidth inputHeight
  let args : DecodeRegionArgs :=
    { allocator := allocator, subset := subset, sampleSize := l.sampleSize,
      colorType := decodeColorType, requireUnpremul := l.requireUnpremul,
      colorSpace := decodeColorSpace }
  match brd.decodeRegion args with
  | none =>
    { ret := nullObjectReturn "Failed to decode region.", options := options,
      exceptionPending := false, trace := warn ++ [Event.decodeRegion args] }
  | some bitmap =>
    -- If the client provided options, indicate that the decode was successful.
    let written := options.map
      (writeSuccess env brd l.isHardware decodeColorType decodeColorSpace bitmap)
    if (written.map Prod.snd).getD false then
      { ret := nullObjectReturn "OOM in encodedFormatToString()",
        options := written.map Prod.fst, exceptionPending := true,
        trace := warn ++ [Event.decodeRegion args] }
    else
      -- If we may have reused a bitmap, indicate that the pixels have changed.
      let fin := finishDecode env l allocator (env.toBitmap inBitmapHandle).info bitmap
      { ret := fin.1, options := written.map Prod.fst, exceptionPending := false,
        trace := warn ++ [Event.decodeRegion args] ++ fin.2 }

/-- The function `createBitmapRegionDecoder` (source lines 39-47). -/
def createBitmapRegionDecoder (env : Runtime) (data : Option (List Nat)) : JNIResult :=
  match env.brdMake data with
  | none =>
    { ret := nullObjectReturn "CreateBitmapRegionDecoder returned null", options := none,
      exceptionPending := true,
      trace := [Event.brdMake data, Event.doThrowIOE "Image format not supported"] }
  | some brd =>
    { ret := (env.createJavaRegionDecoder brd).1, options := none,
      exceptionPending := (env.createJavaRegionDecoder brd).2,
      trace := [Event.brdMake data, Event.createJavaRegionDecoder brd] }

/-- The function `nativeNewInstanceFromFileDescriptor` (source lines 55-68). -/
def nativeNewInstanceFromFileDescriptor (env : Runtime) (fileDescriptor : jobject) :
    JNIResult :=
  match fileDescriptor with
  | none =>
    -- NPE_CHECK_RETURN_ZERO
    { ret := none, options := none, exceptionPending := true, trace := [Event.doThrowNPE] }
  | some fd =>
    let descriptor := env.jniGetFDFromFileDescriptor fd
    if env.fstat descriptor = -1 then
      { ret := nullObjectReturn "fstat return -1", options := none, exceptionPending := true,
        trace := [Event.fstat descriptor, Event.doThrowIOE "broken file descriptor"] }
    else
      let r := createBitmapRegionDecoder env (env.makeFromFD descriptor)
      { r with trace := [Event.fstat descriptor, Event.makeFromFD descriptor] ++ r.trace }

/-- The function `nativeClean` (source lines 226-229): the native decoder is deleted. -/
def nativeClean (brdHandle : Int) : List Event := [Event.nativeClean brdHandle]

/-! ## Observations on a result -/

/-- The argument lists of the calls of `decodeRegion` recorded in a trace. -/
def decodeRegionCalls (t : List Event) : List DecodeRegionArgs :=
  t.filterMap fun e => match e with
    | Event.decodeRegion a => some a
    | _ => none

/-- The colour type that `nativeDecodeRegion` has settled on when it calls
`decodeRegion` (source lines 139-162), written out as a function of the inputs. -/
def finalColorType (env : Runtime) (brdHandle : Int) (options : Option Options)
    (inBitmapHandle : Int) : SkColorType :=
  if (readOptions env options).javaBitmap.isSome then
    (env.toBitmap inBitmapHandle).info.colorType
  else
    hardwareFallback env (readOptions env options).isHardware
      ((env.toBrd brdHandle).computeOutputColorType (readOptions env options).colorType)

/-- The single argument list that `nativeDecodeRegion` passes to `decodeRegion`,
written out as a function of the inputs. -/
def decodeArgsOf (env : Runtime) (brdHandle x y w h : Int) (options : Option Options)
    (inBitmapHandle colorSpaceHandle : Int) : DecodeRegionArgs :=
  { allocator :=
      if (readOptions env options).javaBitmap.isSome then
        BRDAllocator.recycleAlloc (some inBitmapHandle)
          (env.toBitmap inBitmapHandle).getAllocationByteCount
      else BRDAllocator.heapAlloc,
    subset := SkIRect.MakeXYWH x y w h,
    sampleSize := (readOptions env options).sampleSize,
    colorType := finalColorType env brdHandle options inBitmapHandle,
    requireUnpremul := (readOptions env options).requireUnpremul,
    colorSpace :=
      (env.toBrd brdHandle).computeOutputColorSpace
        (finalColorType env brdHandle options inBitmapHandle)
        (env.getNativeColorSpace colorSpaceHandle) }

/-- The log output of `nativeDecodeRegion` (source lines 130-134), written out as a
function of the inputs. -/
def warningOf (env : Runtime) (options : Option Options) (inBitmapHandle : Int) : List Event :=
  if (readOptions env options).javaBitmap.isSome ∧ (env.toBitmap inBitmapHandle).isImmutable then
    [Event.logW "Warning: Reusing an immutable bitmap as an image decoder target."]
  else []

/-- The runtime `env` with the immutable flag of the native bitmap behind `hdl` set to
`immutable`; nothing else differs. -/
def setImmutable (env : Runtime) (hdl : Int) (immutable : Bool) : Runtime :=
  { env with
    toBitmap := fun k =>
      if k = hdl then { env.toBitmap k with isImmutable := immutable } else env.toBitmap k }

/-! ## Sample collaborators

A concrete runtime, used to evaluate the functions on explicit inputs. -/

/-- Whether an allocator can supply `pixels` pixels of four bytes each. -/
def sampleFits : BRDAllocator → Int → Bool
  | BRDAllocator.heapAlloc, _ => true
  | BRDAllocator.recycleAlloc _ bytes, pixels => decide ((pixels * 4).toNat ≤ bytes)

/-- A decoder for a 4000 x 3000 image whose preferred colour type is `native`.  It
decodes a subset that lies inside the image, as long as a recycled bitmap offers four
bytes per pixel. -/
def sampleDecoder (native : SkColorType) : BitmapRegionDecoder where
  computeOutputColorType := fun requested =>
    if requested = kN32_SkColorType then native else requested
  computeOutputColorSpace := fun _ cs => cs
  decodeRegion := fun a =>
    if 0 ≤ a.subset.x ∧ 0 ≤ a.subset.y ∧ 0 < a.subset.w ∧ 0 < a.subset.h ∧
        a.subset.x + a.subset.w ≤ 4000 ∧ a.subset.y + a.subset.h ≤ 3000 ∧
        sampleFits a.allocator (a.subset.w * a.subset.h) = true then
      some ⟨a.subset.w, a.subset.h⟩
    else none
  getEncodedFormat := 4

/-- The legacy config numbers of `GraphicsJNI.h`. -/
def sampleLegacyConfig : SkColorType → Int
  | kAlpha_8_SkColorType => 1
  | kRGB_565_SkColorType => 3
  | kARGB_4444_SkColorType => 4
  | kRGBA_8888_SkColorType => 5
  | kRGBA_F16_SkColorType => 6
  | kRGBA_1010102_SkColorType => 8
  | _ => 0

/-- The colour type behind a `Bitmap.Config` object; the config with legacy number
`n` is the Java object `1000 + n`, and 7 is the hardware config. -/
def sampleConfigColorType : jobject → SkColorType
  | some 1001 => kAlpha_8_SkColorType
  | some 1003 => kRGB_565_SkColorType
  | some 1004 => kARGB_4444_SkColorType
  | some 1005 => kN32_SkColorType
  | some 1006 => kRGBA_F16_SkColorType
  | some 1007 => kN32_SkColorType
  | some 1008 => kRGBA_1010102_SkColorType
  | _ => kUnknown_SkColorType

/-- A runtime around `sampleDecoder native`: `fp16` and `tenBit` are the two hardware
capabilities, `mimeThrows` says whether building the MIME string raises, `immutable`
is the flag of every native bitmap (each an RGB_565 bitmap of 100 x 100 pixels with
40000 bytes), and `fstatResult` is what `fstat` answers. -/
def sampleRuntime (native : SkColorType) (fp16 tenBit mimeThrows immutable : Bool)
    (fstatResult : Int) : Runtime where
  toBrd := fun _ => sampleDecoder native
  toBitmap := fun _ =>
    { info := ⟨kRGB_565_SkColorType, 100, 100⟩, isImmutable := immutable,
      getAllocationByteCount := 40000 }
  getNativeColorSpace := fun hdl => if hdl = 0 then none else some hdl.toNat
  getNativeBitmapColorType := sampleConfigColorType
  isHardwareConfig := fun c => decide (c = some 1007)
  hasFP16Support := fp16
  has1010102Support := tenBit
  getMimeTypeAsJavaString := fun fmt => if mimeThrows then (none, true) else (some (2000 + fmt), false)
  colorTypeToLegacyBitmapConfig := sampleLegacyConfig
  kHardware_LegacyBitmapConfig := 7
  nativeToConfig := fun n => some (1000 + n.toNat)
  getColorSpace := fun cs ct => some (3000 + 100 * cs.getD 0 + (sampleLegacyConfig ct).toNat)
  kBitmapCreateFlag_Premultiplied := 2
  createBitmap := fun px flags =>
    match px with
    | NativePixels.heapStorage _ => some (5000 + flags)
    | NativePixels.hardwareBitmap _ => some (6000 + flags)
  jniGetFDFromFileDescriptor := fun fd => fd
  fstat := fun _ => fstatResult
  makeFromFD := fun d => if d = 3 then some [137, 80, 78, 71] else none
  brdMake := fun data => match data with
    | some (137 :: _) => some 1
    | _ => none
  createJavaRegionDecoder := fun brd => (some (7000 + brd), false)

/-- An options object asking for `config`, with the reusable bitmap `inBitmap`; its
output fields hold stale values. -/
def sampleOptions (config inBitmap : jobject) : Options :=
  { inSampleSize := 1, inPreferredConfig := config, inPremultiplied := true,
    inBitmap := inBitmap, outWidth := 640, outHeight := 480, outMimeType := some 2001,
    outConfig := some 1003, outColorSpace := some 3001 }

/-! ## Helper lemmas -/

/-- The body of `nativeDecodeRegion` with its local variables named by the
observation functions above. -/
theorem nativeDecodeRegion_eq (env : Runtime) (brdHandle x y w h : Int)
    (options : Option Options) (inBitmapHandle colorSpaceHandle : Int) :
    nativeDecodeRegion env brdHandle x y w h options inBitmapHandle colorSpaceHandle =
      match (env.toBrd brdHandle).decodeRegion
          (decodeArgsOf env brdHandle x y w h options inBitmapHandle colorSpaceHandle) with
      | none =>
        { ret := none, options := options.map initFailure, exceptionPending := false,
          trace := warningOf env options inBitmapHandle ++
            [Event.decodeRegion
              (decodeArgsOf env brdHandle x y w h options inBitmapHandle colorSpaceHandle)] }
      | some bitmap =>
        let a := decodeArgsOf env brdHandle x y w h options inBitmapHandle colorSpaceHandle
        let written := (options.map initFailure).map
          (writeSuccess env (env.toBrd brdHandle) (readOptions env options).isHardware
            a.colorType a.colorSpace bitmap)
        if (written.map Prod.snd).getD false then
          { ret := none, options := written.map Prod.fst, exceptionPending := true,
            trace := warningOf env options inBitmapHandle ++ [Event.decodeRegion a] }
        else
          { ret := (finishDecode env (readOptions env options) a.allocator
                      (env.toBitmap inBitmapHandle).info bitmap).1,
            options := written.map Prod.fst, exceptionPending := false,
            trace := warningOf env options inBitmapHandle ++ [Event.decodeRegion a] ++
              (finishDecode env (readOptions env options) a.allocator
                (env.toBitmap inBitmapHandle).info bitmap).2 } := by
  cases hj : (readOptions env options).javaBitmap <;>
    simp [nativeDecodeRegion, decodeArgsOf, finalColorType, warningOf, nullObjectReturn, hj]

theorem decodeRegionCalls_append (s t : List Event) :
    decodeRegionCalls (s ++ t) = decodeRegionCalls s ++ decodeRegionCalls t := by
  simp [decodeRegionCalls, List.filterMap_append]

theorem decodeRegionCalls_cons (a : DecodeRegionArgs) (t : List Event) :
    decodeRegionCalls (Event.decodeRegion a :: t) = a :: decodeRegionCalls t := by
  simp [decodeRegionCalls]

theorem decodeRegionCalls_warningOf (env : Runtime) (options : Option Options) (hdl : Int) :
    decodeRegionCalls (warningOf env options hdl) = [] := by
  unfold warningOf
  split <;> simp [decodeRegionCalls]

theorem decodeRegionCalls_finishDecode (env : Runtime) (l : DecodeLocals) (a : BRDAllocator)
    (i : SkImageInfo) (b : SkBitmap) :
    decodeRegionCalls (finishDecode env l a i b).2 = [] := by
  unfold finishDecode
  cases l.javaBitmap <;> simp [decodeRegionCalls]
  split <;> simp

/-- Every call of `nativeDecodeRegion` calls `decodeRegion` exactly once, with the
argument list `decodeArgsOf`. -/
theorem decodeRegionCalls_nativeDecodeRegion (env : Runtime) (brdHandle x y w h : Int)
    (options : Option Options) (inBitmapHandle colorSpaceHandle : Int) :
    decodeRegionCalls
        (nativeDecodeRegion env brdHandle x y w h options inBitmapHandle colorSpaceHandle).trace
      = [decodeArgsOf env brdHandle x y w h options inBitmapHandle colorSpaceHandle] := by
  have hone : ∀ a, decodeRegionCalls [Event.decodeRegion a] = [a] := by
    intro a; simp [decodeRegionCalls]
  rw [nativeDecodeRegion_eq]
  cases (env.toBrd brdHandle).decodeRegion
      (decodeArgsOf env brdHandle x y w h options inBitmapHandle colorSpaceHandle) with
  | none => simp [decodeRegionCalls_append, decodeRegionCalls_warningOf, hone]
  | some b =>
    simp only []
    split <;>
      simp [decodeRegionCalls_append, decodeRegionCalls_warningOf, hone,
        decodeRegionCalls_finishDecode, decodeRegionCalls_cons]

/-- The two capability checks, as one case distinction. -/
theorem hardwareFallback_eq (env : Runtime) (isHardware : Bool) (ct : SkColorType) :
    hardwareFallback env isHardware ct =
      if isHardware = true ∧
          ((ct = kRGBA_F16_SkColorType ∧ env.hasFP16Support = false) ∨
           (ct = kRGBA_1010102_SkColorType ∧ env.has1010102Support = false)) then
        kN32_SkColorType
      else ct := by
  unfold hardwareFallback
  cases isHardware <;> cases hf : env.hasFP16Support <;> cases ht : env.has1010102Support <;>
    cases ct <;> simp [kN32_SkColorType]

theorem readOptions_javaBitmap_none (env : Runtime) (options : Option Options)
    (hno : ∀ o, options = some o → o.inBitmap = none) :
    (readOptions env options).javaBitmap = none := by
  cases options with
  | none => rfl
  | some o => simpa [readOptions] using hno o rfl

/-- The options written by `writeSuccess` when no exception is pending after the MIME
string was built. -/
theorem writeSuccess_of_no_exception (env : Runtime) (brd : BitmapRegionDecoder)
    (isHardware : Bool) (ct : SkColorType) (cs : SkColorSpaceRef) (b : SkBitmap) (o : Options)
    (hm : (env.getMimeTypeAsJavaString brd.getEncodedFormat).2 = false) :
    writeSuccess env brd isHardware ct cs b o =
      ({ o with
          outWidth := b.width, outHeight := b.height,
          outMimeType := (env.getMimeTypeAsJavaString brd.getEncodedFormat).1,
          outConfig := env.nativeToConfig
            (if isHardware then env.kHardware_LegacyBitmapConfig
             else env.colorTypeToLegacyBitmapConfig ct),
          outColorSpace := env.getColorSpace cs ct }, false) := by
  simp [writeSuccess, hm]

/-- The options written by `writeSuccess` when an exception is pending after the MIME
string was built. -/
theorem writeSuccess_of_exception (env : Runtime) (brd : BitmapRegionDecoder)
    (isHardware : Bool) (ct : SkColorType) (cs : SkColorSpaceRef) (b : SkBitmap) (o : Options)
    (hm : (env.getMimeTypeAsJavaString brd.getEncodedFormat).2 = true) :
    writeSuccess env brd isHardware ct cs b o =
      ({ o with
          outWidth := b.width, outHeight := b.height,
          outMimeType := (env.getMimeTypeAsJavaString brd.getEncodedFormat).1 }, true) := by
  simp [writeSuccess, hm]

/-- The shape of a call that returns a non-null object: `decodeRegion` succeeded, no
exception was pending after the MIME string was built, the options hold the metadata
written by `writeSuccess`, and the returned object is the one of `finishDecode`. -/
theorem ret_some_shape (env : Runtime) (brdHandle x y w h : Int)
    (options : Option Options) (inBitmapHandle colorSpaceHandle : Int)
    (hret : (nativeDecodeRegion env brdHandle x y w h options inBitmapHandle
      colorSpaceHandle).ret ≠ none) :
    ∃ b, (env.toBrd brdHandle).decodeRegion
          (decodeArgsOf env brdHandle x y w h options inBitmapHandle colorSpaceHandle) = some b ∧
      (options ≠ none →
        (env.getMimeTypeAsJavaString (env.toBrd brdHandle).getEncodedFormat).2 = false) ∧
      (nativeDecodeRegion env brdHandle x y w h options inBitmapHandle colorSpaceHandle).options
        = options.map (fun o =>
            (writeSuccess env (env.toBrd brdHandle) (readOptions env options).isHardware
              (finalColorType env brdHandle options inBitmapHandle)
              ((env.toBrd brdHandle).computeOutputColorSpace
                (finalColorType env brdHandle options inBitmapHandle)
                (env.getNativeColorSpace colorSpaceHandle)) b (initFailure o)).1) ∧
      (nativeDecodeRegion env brdHandle x y w h options inBitmapHandle colorSpaceHandle).ret
        = (finishDecode env (readOptions env options)
            (decodeArgsOf env brdHandle x y w h options inBitmapHandle
              colorSpaceHandle).allocator
            (env.toBitmap inBitmapHandle).info b).1 ∧
      (nativeDecodeRegion env brdHandle x y w h options inBitmapHandle colorSpaceHandle).trace
        = warningOf env options inBitmapHandle ++
          [Event.decodeRegion
            (decodeArgsOf env brdHandle x y w h options inBitmapHandle colorSpaceHandle)] ++
          (finishDecode env (readOptions env options)
            (decodeArgsOf env brdHandle x y w h options inBitmapHandle
              colorSpaceHandle).allocator
            (env.toBitmap inBitmapHandle).info b).2 ∧
      (nativeDecodeRegion env brdHandle x y w h options inBitmapHandle
        colorSpaceHandle).exceptionPending = false := by
  rw [nativeDecodeRegion_eq] at hret ⊢
  cases hd : (env.toBrd brdHandle).decodeRegion
      (decodeArgsOf env brdHandle x y w h options inBitmapHandle colorSpaceHandle) with
  | none => rw [hd] at hret; simp at hret
  | some b =>
    rw [hd] at hret
    refine ⟨b, rfl, ?_⟩
    simp only [] at hret ⊢
    split at hret
    · simp at hret
    · rename_i hthrow
      rw [if_neg hthrow]
      refine ⟨?_, ?_, rfl, rfl, rfl⟩
      · intro hopt
        cases options with
        | none => exact absurd rfl hopt
        | some o =>
          cases hm : (env.getMimeTypeAsJavaString (env.toBrd brdHandle).getEncodedFormat).2 with
          | false => rfl
          | true =>
            exfalso
            apply hthrow
            simp [writeSuccess_of_exception _ _ _ _ _ _ _ hm]
      · cases options <;> simp [decodeArgsOf]

/-- The object and the effects of `finishDecode` when there is no reusable bitmap:
`createBitmap` on the hardware bitmap allocated from the decoded pixels when the
hardware config was requested, and on the heap allocator's storage otherwise. -/
theorem finishDecode_fresh (env : Runtime) (l : DecodeLocals) (a : BRDAllocator)
    (i : SkImageInfo) (b : SkBitmap) (hj : l.javaBitmap = none) :
    finishDecode env l a i b =
      (env.createBitmap
          (if l.isHardware then NativePixels.hardwareBitmap b else NativePixels.heapStorage b)
          (if l.requireUnpremul then 0 else 0 ||| env.kBitmapCreateFlag_Premultiplied),
       [if l.isHardware then Event.allocateHardwareBitmap b else Event.getStorageObjAndReset,
        Event.createBitmap
          (if l.isHardware then NativePixels.hardwareBitmap b else NativePixels.heapStorage b)
          (if l.requireUnpremul then 0 else 0 ||| env.kBitmapCreateFlag_Premultiplied)]) := by
  cases hh : l.isHardware <;> simp [finishDecode, hj, hh]

/-- The object and the effects of `finishDecode` when the reusable bitmap `jb` was
supplied. -/
theorem finishDecode_reuse (env : Runtime) (l : DecodeLocals) (a : BRDAllocator)
    (i : SkImageInfo) (b : SkBitmap) (jb : JavaObject) (hj : l.javaBitmap = some jb) :
    finishDecode env l a i b =
      (some jb, [Event.copyIfNecessary a, Event.reinitBitmap jb i (!l.requireUnpremul)]) := by
  simp [finishDecode, hj]

/-- The shape of a call whose `decodeRegion` call succeeds with the bitmap `b` while
no exception is pending after the MIME string was built: the call returns the object
of `finishDecode`, with its effects after the `decodeRegion` call. -/
theorem decode_success_shape (env : Runtime) (brdHandle x y w h : Int)
    (options : Option Options) (inBitmapHandle colorSpaceHandle : Int) (b : SkBitmap)
    (hd : (env.toBrd brdHandle).decodeRegion
      (decodeArgsOf env brdHandle x y w h options inBitmapHandle colorSpaceHandle) = some b)
    (hm : options = none ∨
      (env.getMimeTypeAsJavaString (env.toBrd brdHandle).getEncodedFormat).2 = false) :
    (nativeDecodeRegion env brdHandle x y w h options inBitmapHandle colorSpaceHandle).ret
      = (finishDecode env (readOptions env options)
          (decodeArgsOf env brdHandle x y w h options inBitmapHandle colorSpaceHandle).allocator
          (env.toBitmap inBitmapHandle).info b).1 ∧
    (nativeDecodeRegion env brdHandle x y w h options inBitmapHandle colorSpaceHandle).trace
      = warningOf env options inBitmapHandle ++
        [Event.decodeRegion
          (decodeArgsOf env brdHandle x y w h options inBitmapHandle colorSpaceHandle)] ++
        (finishDecode env (readOptions env options)
          (decodeArgsOf env brdHandle x y w h options inBitmapHandle colorSpaceHandle).allocator
          (env.toBitmap inBitmapHandle).info b).2 ∧
    (nativeDecodeRegion env brdHandle x y w h options inBitmapHandle
      colorSpaceHandle).exceptionPending = false := by
  rw [nativeDecodeRegion_eq, hd]
  simp only []
  have hnot : ¬ ((((options.map initFailure).map
      (writeSuccess env (env.toBrd brdHandle) (readOptions env options).isHardware
        (decodeArgsOf env brdHandle x y w h options inBitmapHandle colorSpaceHandle).colorType
        (decodeArgsOf env brdHandle x y w h options inBitmapHandle colorSpaceHandle).colorSpace
        b)).map Prod.snd).getD false = true) := by
    cases options with
    | none => simp
    | some o =>
      rcases hm with hm | hm
      · cases hm
      · simp [writeSuccess_of_no_exception _ _ _ _ _ _ _ hm]
  rw [if_neg hnot]
  exact ⟨rfl, rfl, rfl⟩

/-- A call that returns null had its `decodeRegion` call fail, or found an exception
pending after the MIME string was built, or, with no reusable bitmap, got null from the
`createBitmap` call it made on the decoded bitmap. -/
theorem ret_none_cause (env : Runtime) (brdHandle x y w h : Int)
    (options : Option Options) (inBitmapHandle colorSpaceHandle : Int)
    (hret : (nativeDecodeRegion env brdHandle x y w h options inBitmapHandle
      colorSpaceHandle).ret = none) :
    (env.toBrd brdHandle).decodeRegion
        (decodeArgsOf env brdHandle x y w h options inBitmapHandle colorSpaceHandle) = none ∨
    (options ≠ none ∧
      (env.getMimeTypeAsJavaString (env.toBrd brdHandle).getEncodedFormat).2 = true) ∨
    (∃ b, (env.toBrd brdHandle).decodeRegion
          (decodeArgsOf env brdHandle x y w h options inBitmapHandle colorSpaceHandle) = some b ∧
      (readOptions env options).javaBitmap = none ∧
      env.createBitmap
          (if (readOptions env options).isHardware then NativePixels.hardwareBitmap b
           else NativePixels.heapStorage b)
          (if (readOptions env options).requireUnpremul then 0
           else 0 ||| env.kBitmapCreateFlag_Premultiplied) = none) := by
  cases hd : (env.toBrd brdHandle).decodeRegion
      (decodeArgsOf env brdHandle x y w h options inBitmapHandle colorSpaceHandle) with
  | none => exact Or.inl rfl
  | some b =>
    refine Or.inr ?_
    by_cases hopt : options = none
    · right
      obtain ⟨hr, -, -⟩ := decode_success_shape env brdHandle x y w h options inBitmapHandle
        colorSpaceHandle b hd (Or.inl hopt)
      have hj : (readOptions env options).javaBitmap = none := by subst hopt; rfl
      rw [hr, finishDecode_fresh _ _ _ _ _ hj] at hret
      exact ⟨b, rfl, hj, hret⟩
    · cases hm : (env.getMimeTypeAsJavaString (env.toBrd brdHandle).getEncodedFormat).2 with
      | true => exact Or.inl ⟨hopt, rfl⟩
      | false =>
        right
        obtain ⟨hr, -, -⟩ := decode_success_shape env brdHandle x y w h options inBitmapHandle
          colorSpaceHandle b hd (Or.inr hm)
        cases hj : (readOptions env options).javaBitmap with
        | some jb =>
          rw [hr, finishDecode_reuse _ _ _ _ _ jb hj] at hret
          cases hret
        | none =>
          rw [hr, finishDecode_fresh _ _ _ _ _ hj] at hret
          exact ⟨b, rfl, rfl, hret⟩

theorem readOptions_setImmutable (env : Runtime) (hdl : Int) (b : Bool)
    (options : Option Options) :
    readOptions (setImmutable env hdl b) options = readOptions env options := by
  cases options <;> rfl

theorem decodeArgsOf_setImmutable (env : Runtime) (brdHandle x y w h : Int)
    (options : Option Options) (hdl colorSpaceHandle : Int) (b : Bool) :
    decodeArgsOf (setImmutable env hdl b) brdHandle x y w h options hdl colorSpaceHandle
      = decodeArgsOf env brdHandle x y w h options hdl colorSpaceHandle := by
  simp only [decodeArgsOf, finalColorType, readOptions_setImmutable]
  simp [setImmutable, hardwareFallback]

/-- The result of a call is the same whatever the immutable flag of the recycled bitmap
is, up to the warning at the head of the trace. -/
theorem nativeDecodeRegion_setImmutable (env : Runtime) (brdHandle x y w h : Int)
    (options : Option Options) (hdl colorSpaceHandle : Int) (b : Bool) :
    ∃ ret opts exc rest,
      nativeDecodeRegion (setImmutable env hdl b) brdHandle x y w h options hdl
          colorSpaceHandle
        = { ret := ret, options := opts, exceptionPending := exc,
            trace := warningOf (setImmutable env hdl b) options hdl ++ rest } ∧
      nativeDecodeRegion (setImmutable env hdl false) brdHandle x y w h options hdl
          colorSpaceHandle
        = { ret := ret, options := opts, exceptionPending := exc, trace := rest } := by
  have hw : warningOf (setImmutable env hdl false) options hdl = [] := by
    simp [warningOf, setImmutable]
  have hinfo : ∀ c, ((setImmutable env hdl c).toBitmap hdl).info = (env.toBitmap hdl).info := by
    intro c; simp [setImmutable]
  rw [nativeDecodeRegion_eq, nativeDecodeRegion_eq]
  simp only [decodeArgsOf_setImmutable, readOptions_setImmutable, hw, hinfo, List.nil_append]
  have hbrd : ∀ c, (setImmutable env hdl c).toBrd = env.toBrd := fun _ => rfl
  simp only [hbrd]
  cases (env.toBrd brdHandle).decodeRegion
      (decodeArgsOf env brdHandle x y w h options hdl colorSpaceHandle) with
  | none => exact ⟨_, _, _, _, rfl, rfl⟩
  | some bm =>
    simp only []
    have hws : ∀ c, writeSuccess (setImmutable env hdl c) = writeSuccess env := fun _ => rfl
    have hfd : ∀ c, finishDecode (setImmutable env hdl c) = finishDecode env := fun _ => rfl
    simp only [hws, hfd]
    split
    · exact ⟨_, _, _, _, rfl, rfl⟩
    · exact ⟨_, _, _, _, by rw [List.append_assoc], rfl⟩

/-! ## The claims -/

/-- C1 (override law).  When the options carry a reusable bitmap, `decodeRegion` is
called once and the colour type it receives is the colour type of the native bitmap
behind `inBitmapHandle`, whatever the requested config, the hardware flag, the two
capabilities and `computeOutputColorType` are; when that colour type differs from the
requested one, the request is not what `decodeRegion` receives. -/
theorem C1_override_law (env : Runtime) (brdHandle x y w h : Int) (o : Options)
    (inBitmapHandle colorSpaceHandle : Int) (jb : JavaObject) (hjb : o.inBitmap = some jb) :
    (decodeRegionCalls
        (nativeDecodeRegion env brdHandle x y w h (some o) inBitmapHandle
          colorSpaceHandle).trace).map DecodeRegionArgs.colorType
      = [(env.toBitmap inBitmapHandle).info.colorType] ∧
    ((env.toBitmap inBitmapHandle).info.colorType ≠
        env.getNativeBitmapColorType o.inPreferredConfig →
      (decodeRegionCalls
          (nativeDecodeRegion env brdHandle x y w h (some o) inBitmapHandle
            colorSpaceHandle).trace).map DecodeRegionArgs.colorType
        ≠ [env.getNativeBitmapColorType o.inPreferredConfig]) := by
  have hct : (decodeRegionCalls
        (nativeDecodeRegion env brdHandle x y w h (some o) inBitmapHandle
          colorSpaceHandle).trace).map DecodeRegionArgs.colorType
      = [(env.toBitmap inBitmapHandle).info.colorType] := by
    rw [decodeRegionCalls_nativeDecodeRegion]
    simp [decodeArgsOf, finalColorType, readOptions, hjb]
  refine ⟨hct, fun hne => ?_⟩
  rw [hct]
  simpa using hne

/-- The override law on a call that asks for the hardware config (whose colour type
is resolved to RGBA_F16) while the reusable bitmap is RGB_565: RGB_565 is decoded. -/
theorem C1_override_law_witness :
    (sampleOptions (some 1007) (some 42)).inBitmap = some 42 ∧
    (decodeRegionCalls
        (nativeDecodeRegion (sampleRuntime kRGBA_F16_SkColorType true true false false 0)
          1 0 0 100 100 (some (sampleOptions (some 1007) (some 42))) 9 0).trace).map
        DecodeRegionArgs.colorType
      = [kRGB_565_SkColorType] :=
  ⟨rfl, (C1_override_law (sampleRuntime kRGBA_F16_SkColorType true true false false 0)
    1 0 0 100 100 (sampleOptions (some 1007) (some 42)) 9 0 42 rfl).1⟩

/-- C2 (hardware capability fallback).  With no reusable bitmap, let `ct` be what
`computeOutputColorType` answers for the requested colour type.  `decodeRegion` is
called once, with `kN32_SkColorType` when the hardware config was requested and
(`ct` is RGBA_F16 without FP16 support, or `ct` is RGBA_1010102 without 1010102
support), and with `ct` itself in every other case.  Hence with the hardware config
it is never asked for RGBA_F16 without FP16 support nor for RGBA_1010102 without
1010102 support.  The fallback is no failure: whenever the `decodeRegion` call
succeeds and no exception is pending after the MIME string was built, the call returns
the object that `createBitmap` made from the decoded bitmap; so a null result can only
come from a failed `decodeRegion` call, from such an exception, or from that very
`createBitmap` call returning null. -/
theorem C2_hardware_capability_fallback (env : Runtime) (brdHandle x y w h : Int)
    (options : Option Options) (inBitmapHandle colorSpaceHandle : Int)
    (hno : ∀ o, options = some o → o.inBitmap = none) :
    (decodeRegionCalls
        (nativeDecodeRegion env brdHandle x y w h options inBitmapHandle
          colorSpaceHandle).trace).map DecodeRegionArgs.colorType
      = [if (readOptions env options).isHardware = true ∧
            (((env.toBrd brdHandle).computeOutputColorType (readOptions env options).colorType
                  = kRGBA_F16_SkColorType ∧ env.hasFP16Support = false) ∨
             ((env.toBrd brdHandle).computeOutputColorType (readOptions env options).colorType
                  = kRGBA_1010102_SkColorType ∧ env.has1010102Support = false)) then
           kN32_SkColorType
         else (env.toBrd brdHandle).computeOutputColorType (readOptions env options).colorType] ∧
    ((readOptions env options).isHardware = true → env.hasFP16Support = false →
      ∀ a ∈ decodeRegionCalls
          (nativeDecodeRegion env brdHandle x y w h options inBitmapHandle
            colorSpaceHandle).trace, a.colorType ≠ kRGBA_F16_SkColorType) ∧
    ((readOptions env options).isHardware = true → env.has1010102Support = false →
      ∀ a ∈ decodeRegionCalls
          (nativeDecodeRegion env brdHandle x y w h options inBitmapHandle
            colorSpaceHandle).trace, a.colorType ≠ kRGBA_1010102_SkColorType) ∧
    ((nativeDecodeRegion env brdHandle x y w h options inBitmapHandle colorSpaceHandle).ret
        = none →
      (∃ a ∈ decodeRegionCalls
          (nativeDecodeRegion env brdHandle x y w h options inBitmapHandle
            colorSpaceHandle).trace, (env.toBrd brdHandle).decodeRegion a = none) ∨
      (options ≠ none ∧
        (env.getMimeTypeAsJavaString (env.toBrd brdHandle).getEncodedFormat).2 = true) ∨
      (∃ a ∈ decodeRegionCalls
          (nativeDecodeRegion env brdHandle x y w h options inBitmapHandle
            colorSpaceHandle).trace,
        ∃ b, (env.toBrd brdHandle).decodeRegion a = some b ∧
          env.createBitmap
            (if (readOptions env options).isHardware then NativePixels.hardwareBitmap b
             else NativePixels.heapStorage b)
            (if (readOptions env options).requireUnpremul then 0
             else 0 ||| env.kBitmapCreateFlag_Premultiplied) = none)) ∧
    (∀ a ∈ decodeRegionCalls
        (nativeDecodeRegion env brdHandle x y w h options inBitmapHandle
          colorSpaceHandle).trace,
      ∀ b, (env.toBrd brdHandle).decodeRegion a = some b →
        (options = none ∨
          (env.getMimeTypeAsJavaString (env.toBrd brdHandle).getEncodedFormat).2 = false) →
        (nativeDecodeRegion env brdHandle x y w h options inBitmapHandle
            colorSpaceHandle).ret
          = env.createBitmap
              (if (readOptions env options).isHardware then NativePixels.hardwareBitmap b
               else NativePixels.heapStorage b)
              (if (readOptions env options).requireUnpremul then 0
               else 0 ||| env.kBitmapCreateFlag_Premultiplied) ∧
        (nativeDecodeRegion env brdHandle x y w h options inBitmapHandle
            colorSpaceHandle).exceptionPending = false) := by
  have hj := readOptions_javaBitmap_none env options hno
  have hfin : finalColorType env brdHandle options inBitmapHandle =
      hardwareFallback env (readOptions env options).isHardware
        ((env.toBrd brdHandle).computeOutputColorType (readOptions env options).colorType) := by
    simp [finalColorType, hj]
  rw [decodeRegionCalls_nativeDecodeRegion]
  refine ⟨?_, ?_, ?_, ?_, ?_⟩
  · simp only [List.map_cons, List.map_nil, decodeArgsOf, hfin, hardwareFallback_eq]
  · intro hhw hfp a ha
    simp only [List.mem_singleton] at ha
    subst ha
    simp only [decodeArgsOf, hfin, hardwareFallback_eq, hhw, hfp]
    split <;> simp_all [kN32_SkColorType]
  · intro hhw hten a ha
    simp only [List.mem_singleton] at ha
    subst ha
    simp only [decodeArgsOf, hfin, hardwareFallback_eq, hhw, hten]
    split <;> simp_all [kN32_SkColorType]
  · intro hret
    rcases ret_none_cause env brdHandle x y w h options inBitmapHandle colorSpaceHandle hret
      with h1 | h2 | h3
    · exact Or.inl ⟨_, List.mem_singleton.mpr rfl, h1⟩
    · exact Or.inr (Or.inl h2)
    · obtain ⟨b, hb, -, hc⟩ := h3
      exact Or.inr (Or.inr ⟨_, List.mem_singleton.mpr rfl, b, hb, hc⟩)
  · intro a ha b hb hm
    simp only [List.mem_singleton] at ha
    subst ha
    obtain ⟨hr, -, he⟩ := decode_success_shape env brdHandle x y w h options inBitmapHandle
      colorSpaceHandle b hb hm
    rw [hr, finishDecode_fresh _ _ _ _ _ hj]
    exact ⟨rfl, he⟩

/-- The fallback on a hardware request for an image that resolves to RGBA_F16 on a
device without FP16 support: the 32-bit type is decoded, and the call returns the
hardware bitmap that `createBitmap` made (object 6002), with no exception pending. -/
theorem C2_hardware_capability_fallback_witness :
    (∀ o, some (sampleOptions (some 1007) none) = some o → o.inBitmap = none) ∧
    (decodeRegionCalls
        (nativeDecodeRegion (sampleRuntime kRGBA_F16_SkColorType false true false false 0)
          1 0 0 100 100 (some (sampleOptions (some 1007) none)) 0 0).trace).map
        DecodeRegionArgs.colorType
      = [kN32_SkColorType] ∧
    (nativeDecodeRegion (sampleRuntime kRGBA_F16_SkColorType false true false false 0)
        1 0 0 100 100 (some (sampleOptions (some 1007) none)) 0 0).ret = some 6002 ∧
    (nativeDecodeRegion (sampleRuntime kRGBA_F16_SkColorType false true false false 0)
        1 0 0 100 100 (some (sampleOptions (some 1007) none)) 0 0).exceptionPending = false :=
  ⟨fun o ho => by cases ho; rfl,
   (C2_hardware_capability_fallback (sampleRuntime kRGBA_F16_SkColorType false true false false 0)
      1 0 0 100 100 (some (sampleOptions (some 1007) none)) 0 0
      (fun o ho => by cases ho; rfl)).1,
   (C2_hardware_capability_fallback (sampleRuntime kRGBA_F16_SkColorType false true false false 0)
      1 0 0 100 100 (some (sampleOptions (some 1007) none)) 0 0
      (fun o ho => by cases ho; rfl)).2.2.2.2
      { allocator := BRDAllocator.heapAlloc, subset := SkIRect.MakeXYWH 0 0 100 100,
        sampleSize := 1, colorType := kN32_SkColorType, requireUnpremul := false,
        colorSpace := none }
      (by decide) ⟨100, 100⟩ (by decide) (Or.inr (by decide))⟩

/-- C3, as stated, fails.  On a device without FP16 support, a successful decode that
asked for the hardware config of an image resolved to RGBA_F16 writes the hardware
config (legacy number 7, object 1007) to `outConfig`, not the config of
`kN32_SkColorType` (legacy number 5, object 1005). -/
theorem C3_reported_tag_counterexample :
    (nativeDecodeRegion (sampleRuntime kRGBA_F16_SkColorType false true false false 0)
        1 0 0 100 100 (some (sampleOptions (some 1007) none)) 0 0).ret ≠ none ∧
    (sampleRuntime kRGBA_F16_SkColorType false true false false 0).isHardwareConfig
        (sampleOptions (some 1007) none).inPreferredConfig = true ∧
    ((sampleRuntime kRGBA_F16_SkColorType false true false false 0).toBrd 1).computeOutputColorType
        ((sampleRuntime kRGBA_F16_SkColorType false true false false 0).getNativeBitmapColorType
          (sampleOptions (some 1007) none).inPreferredConfig) = kRGBA_F16_SkColorType ∧
    (sampleRuntime kRGBA_F16_SkColorType false true false false 0).hasFP16Support = false ∧
    (sampleRuntime kRGBA_F16_SkColorType false true false false 0).nativeToConfig
        ((sampleRuntime kRGBA_F16_SkColorType false true false false 0).colorTypeToLegacyBitmapConfig
          kN32_SkColorType) = some 1005 ∧
    ((nativeDecodeRegion (sampleRuntime kRGBA_F16_SkColorType false true false false 0)
        1 0 0 100 100 (some (sampleOptions (some 1007) none)) 0 0).options.map
        Options.outConfig) = some (some 1007) ∧
    ((nativeDecodeRegion (sampleRuntime kRGBA_F16_SkColorType false true false false 0)
        1 0 0 100 100 (some (sampleOptions (some 1007) none)) 0 0).options.map
        Options.outConfig)
      ≠ some ((sampleRuntime kRGBA_F16_SkColorType false true false false 0).nativeToConfig
          ((sampleRuntime kRGBA_F16_SkColorType false true false false 0).colorTypeToLegacyBitmapConfig
            kN32_SkColorType)) := by
  decide

/-- C3, amended.  On a successful call with options that asked for the hardware
config while the needed capability is missing (`computeOutputColorType` answered
RGBA_F16 without FP16 support, or RGBA_1010102 without 1010102 support), the config
written to `outConfig` is the one of `kHardware_LegacyBitmapConfig`; the 32-bit
fallback `kN32_SkColorType` is the colour type passed to `decodeRegion` when no
reusable bitmap is supplied. -/
theorem C3_reported_tag_amended (env : Runtime) (brdHandle x y w h : Int) (o : Options)
    (inBitmapHandle colorSpaceHandle : Int)
    (hret : (nativeDecodeRegion env brdHandle x y w h (some o) inBitmapHandle
      colorSpaceHandle).ret ≠ none)
    (hhw : env.isHardwareConfig o.inPreferredConfig = true)
    (hcap :
      ((env.toBrd brdHandle).computeOutputColorType
          (env.getNativeBitmapColorType o.inPreferredConfig) = kRGBA_F16_SkColorType ∧
        env.hasFP16Support = false) ∨
      ((env.toBrd brdHandle).computeOutputColorType
          (env.getNativeBitmapColorType o.inPreferredConfig) = kRGBA_1010102_SkColorType ∧
        env.has1010102Support = false)) :
    (∃ o1, (nativeDecodeRegion env brdHandle x y w h (some o) inBitmapHandle
        colorSpaceHandle).options = some o1 ∧
      o1.outConfig = env.nativeToConfig env.kHardware_LegacyBitmapConfig) ∧
    (o.inBitmap = none →
      (decodeRegionCalls
        (nativeDecodeRegion env brdHandle x y w h (some o) inBitmapHandle
          colorSpaceHandle).trace).map DecodeRegionArgs.colorType = [kN32_SkColorType]) := by
  obtain ⟨b, -, hm, hopt, -, -, -⟩ :=
    ret_some_shape env brdHandle x y w h (some o) inBitmapHandle colorSpaceHandle hret
  have hm1 := hm (by simp)
  constructor
  · refine ⟨_, hopt.trans rfl, ?_⟩
    dsimp only
    rw [writeSuccess_of_no_exception _ _ _ _ _ _ _ hm1]
    simp [readOptions, hhw]
  · intro hnb
    rw [decodeRegionCalls_nativeDecodeRegion]
    simp only [List.map_cons, List.map_nil, decodeArgsOf, finalColorType, readOptions, hnb,
      hardwareFallback_eq, hhw]
    simp [hcap]

/-- The amended C3 on the hardware request without FP16 support. -/
theorem C3_reported_tag_amended_witness :
    (∃ o1, (nativeDecodeRegion (sampleRuntime kRGBA_F16_SkColorType false true false false 0)
        1 0 0 100 100 (some (sampleOptions (some 1007) none)) 0 0).options = some o1 ∧
      o1.outConfig = some 1007) ∧
    ((sampleOptions (some 1007) none).inBitmap = none →
      (decodeRegionCalls
        (nativeDecodeRegion (sampleRuntime kRGBA_F16_SkColorType false true false false 0)
          1 0 0 100 100 (some (sampleOptions (some 1007) none)) 0 0).trace).map
        DecodeRegionArgs.colorType = [kN32_SkColorType]) :=
  C3_reported_tag_amended (sampleRuntime kRGBA_F16_SkColorType false true false false 0)
    1 0 0 100 100 (sampleOptions (some 1007) none) 0 0 (by decide) (by decide)
    (Or.inl (by decide))

/-- C4 (reported pixel format).  On a successful call with options, `decodeRegion` was
called once, with some argument list `a`, and the config written to `outConfig` is
`nativeToConfig` of `kHardware_LegacyBitmapConfig` when the requested config was the
hardware one, and of `colorTypeToLegacyBitmapConfig a.colorType` otherwise. -/
theorem C4_reported_config (env : Runtime) (brdHandle x y w h : Int) (o : Options)
    (inBitmapHandle colorSpaceHandle : Int)
    (hret : (nativeDecodeRegion env brdHandle x y w h (some o) inBitmapHandle
      colorSpaceHandle).ret ≠ none) :
    ∃ a o1,
      decodeRegionCalls
        (nativeDecodeRegion env brdHandle x y w h (some o) inBitmapHandle
          colorSpaceHandle).trace = [a] ∧
      (nativeDecodeRegion env brdHandle x y w h (some o) inBitmapHandle
          colorSpaceHandle).options = some o1 ∧
      (env.isHardwareConfig o.inPreferredConfig = true →
        o1.outConfig = env.nativeToConfig env.kHardware_LegacyBitmapConfig) ∧
      (env.isHardwareConfig o.inPreferredConfig = false →
        o1.outConfig = env.nativeToConfig (env.colorTypeToLegacyBitmapConfig a.colorType)) := by
  obtain ⟨b, -, hm, hopt, -, -, -⟩ :=
    ret_some_shape env brdHandle x y w h (some o) inBitmapHandle colorSpaceHandle hret
  have hm1 := hm (by simp)
  refine ⟨_, _, decodeRegionCalls_nativeDecodeRegion _ _ _ _ _ _ _ _ _, hopt.trans rfl, ?_, ?_⟩
  · intro hhw
    dsimp only
    rw [writeSuccess_of_no_exception _ _ _ _ _ _ _ hm1]
    simp [readOptions, hhw]
  · intro hhw
    dsimp only
    rw [writeSuccess_of_no_exception _ _ _ _ _ _ _ hm1]
    simp [readOptions, hhw, decodeArgsOf]

/-- The reported config of a successful RGB_565 request: the config of the decoded
colour type. -/
theorem C4_reported_config_witness :
    (nativeDecodeRegion (sampleRuntime kRGBA_F16_SkColorType true true false false 0)
        1 0 0 100 100 (some (sampleOptions (some 1003) none)) 0 0).ret ≠ none ∧
    ∃ a o1,
      decodeRegionCalls
        (nativeDecodeRegion (sampleRuntime kRGBA_F16_SkColorType true true false false 0)
          1 0 0 100 100 (some (sampleOptions (some 1003) none)) 0 0).trace = [a] ∧
      (nativeDecodeRegion (sampleRuntime kRGBA_F16_SkColorType true true false false 0)
          1 0 0 100 100 (some (sampleOptions (some 1003) none)) 0 0).options = some o1 ∧
      ((sampleRuntime kRGBA_F16_SkColorType true true false false 0).isHardwareConfig
          (sampleOptions (some 1003) none).inPreferredConfig = true →
        o1.outConfig = some 1007) ∧
      ((sampleRuntime kRGBA_F16_SkColorType true true false false 0).isHardwareConfig
          (sampleOptions (some 1003) none).inPreferredConfig = false →
        o1.outConfig = some (1000 + (sampleLegacyConfig a.colorType).toNat)) :=
  ⟨by decide,
   C4_reported_config (sampleRuntime kRGBA_F16_SkColorType true true false false 0)
    1 0 0 100 100 (sampleOptions (some 1003) none) 0 0 (by decide)⟩

/-- C5 fails on the path that leaves after the MIME string was built.  The decode of
a 100 x 100 region succeeds, building the MIME string raises, and the call returns
null with an exception pending, yet `outWidth` and `outHeight` already hold 100 and
not the failure value -1. -/
theorem C5_mime_exception_leaves_size :
    (nativeDecodeRegion (sampleRuntime kN32_SkColorType true true true false 0)
        1 0 0 100 100 (some (sampleOptions (some 1005) none)) 0 0).ret = none ∧
    (nativeDecodeRegion (sampleRuntime kN32_SkColorType true true true false 0)
        1 0 0 100 100 (some (sampleOptions (some 1005) none)) 0 0).exceptionPending = true ∧
    (nativeDecodeRegion (sampleRuntime kN32_SkColorType true true true false 0)
        1 0 0 100 100 (some (sampleOptions (some 1005) none)) 0 0).options.map
        (fun o => (o.outWidth, o.outHeight, o.outMimeType, o.outConfig, o.outColorSpace))
      = some (100, 100, none, none, none) := by
  decide

/-- C6 (allocator strategy and result aliasing).  Every call hands exactly one
allocator to `decodeRegion`.

* When the options carry a reusable bitmap `jb`, it is the recycling allocator bound
  to the native bitmap behind `inBitmapHandle`.  Whenever the `decodeRegion` call
  succeeds and no exception is pending after the MIME string was built, the call
  returns `jb` itself, after `copyIfNecessary` on that allocator and `reinitBitmap`
  with the recycled bitmap's info and the options' premultiplied flag (also when the
  hardware config was requested); `createBitmap` does not run.  Every call that
  returns a non-null object is of this kind.
* Otherwise it is the heap allocator.  Whenever the `decodeRegion` call succeeds and
  no exception is pending after the MIME string was built, the call returns exactly
  what `createBitmap` made, from the hardware bitmap allocated from the decoded pixels
  when the hardware config was requested and from the heap allocator's storage when
  not; neither `copyIfNecessary` nor `reinitBitmap` runs.  Every call that returns a
  non-null object is of this kind, and that object is not the options' `inBitmap`. -/
theorem C6_allocator_and_aliasing (env : Runtime) (brdHandle x y w h : Int)
    (options : Option Options) (inBitmapHandle colorSpaceHandle : Int) :
    (∀ o jb, options = some o → o.inBitmap = some jb →
      (decodeRegionCalls
          (nativeDecodeRegion env brdHandle x y w h options inBitmapHandle
            colorSpaceHandle).trace).map DecodeRegionArgs.allocator
        = [BRDAllocator.recycleAlloc (some inBitmapHandle)
            (env.toBitmap inBitmapHandle).getAllocationByteCount] ∧
      (∀ a ∈ decodeRegionCalls
          (nativeDecodeRegion env brdHandle x y w h options inBitmapHandle
            colorSpaceHandle).trace,
        ∀ b, (env.toBrd brdHandle).decodeRegion a = some b →
          (env.getMimeTypeAsJavaString (env.toBrd brdHandle).getEncodedFormat).2 = false →
          (nativeDecodeRegion env brdHandle x y w h options inBitmapHandle
            colorSpaceHandle).ret = some jb ∧
          (nativeDecodeRegion env brdHandle x y w h options inBitmapHandle
            colorSpaceHandle).trace
            = warningOf env options inBitmapHandle ++
              [Event.decodeRegion a,
               Event.copyIfNecessary
                 (BRDAllocator.recycleAlloc (some inBitmapHandle)
                   (env.toBitmap inBitmapHandle).getAllocationByteCount),
               Event.reinitBitmap jb (env.toBitmap inBitmapHandle).info o.inPremultiplied] ∧
          (nativeDecodeRegion env brdHandle x y w h options inBitmapHandle
            colorSpaceHandle).exceptionPending = false) ∧
      ((nativeDecodeRegion env brdHandle x y w h options inBitmapHandle
          colorSpaceHandle).ret ≠ none →
        (nativeDecodeRegion env brdHandle x y w h options inBitmapHandle
          colorSpaceHandle).ret = some jb ∧
        ∃ a, (nativeDecodeRegion env brdHandle x y w h options inBitmapHandle
            colorSpaceHandle).trace
          = warningOf env options inBitmapHandle ++
            [Event.decodeRegion a,
             Event.copyIfNecessary
               (BRDAllocator.recycleAlloc (some inBitmapHandle)
                 (env.toBitmap inBitmapHandle).getAllocationByteCount),
             Event.reinitBitmap jb (env.toBitmap inBitmapHandle).info o.inPremultiplied])) ∧
    ((∀ o, options = some o → o.inBitmap = none) →
      (decodeRegionCalls
          (nativeDecodeRegion env brdHandle x y w h options inBitmapHandle
            colorSpaceHandle).trace).map DecodeRegionArgs.allocator
        = [BRDAllocator.heapAlloc] ∧
      (∀ a ∈ decodeRegionCalls
          (nativeDecodeRegion env brdHandle x y w h options inBitmapHandle
            colorSpaceHandle).trace,
        ∀ b, (env.toBrd brdHandle).decodeRegion a = some b →
          (options = none ∨
            (env.getMimeTypeAsJavaString (env.toBrd brdHandle).getEncodedFormat).2 = false) →
          (nativeDecodeRegion env brdHandle x y w h options inBitmapHandle
            colorSpaceHandle).ret
            = env.createBitmap
                (if (readOptions env options).isHardware then NativePixels.hardwareBitmap b
                 else NativePixels.heapStorage b)
                (if (readOptions env options).requireUnpremul then 0
                 else 0 ||| env.kBitmapCreateFlag_Premultiplied) ∧
          (nativeDecodeRegion env brdHandle x y w h options inBitmapHandle
            colorSpaceHandle).trace
            = [Event.decodeRegion a,
               if (readOptions env options).isHardware then Event.allocateHardwareBitmap b
               else Event.getStorageObjAndReset,
               Event.createBitmap
                (if (readOptions env options).isHardware then NativePixels.hardwareBitmap b
                 else NativePixels.heapStorage b)
                (if (readOptions env options).requireUnpremul then 0
                 else 0 ||| env.kBitmapCreateFlag_Premultiplied)] ∧
          (nativeDecodeRegion env brdHandle x y w h options inBitmapHandle
            colorSpaceHandle).exceptionPending = false) ∧
      ((nativeDecodeRegion env brdHandle x y w h options inBitmapHandle
          colorSpaceHandle).ret ≠ none →
        ∃ a b flags,
          (env.toBrd brdHandle).decodeRegion a = some b ∧
          (nativeDecodeRegion env brdHandle x y w h options inBitmapHandle
            colorSpaceHandle).ret
            = env.createBitmap
                (if (readOptions env options).isHardware then NativePixels.hardwareBitmap b
                 else NativePixels.heapStorage b) flags ∧
          (nativeDecodeRegion env brdHandle x y w h options inBitmapHandle
            colorSpaceHandle).trace
            = [Event.decodeRegion a,
               if (readOptions env options).isHardware then Event.allocateHardwareBitmap b
               else Event.getStorageObjAndReset,
               Event.createBitmap
                (if (readOptions env options).isHardware then NativePixels.hardwareBitmap b
                 else NativePixels.heapStorage b) flags] ∧
          ∀ o, options = some o →
            (nativeDecodeRegion env brdHandle x y w h options inBitmapHandle
              colorSpaceHandle).ret ≠ o.inBitmap)) := by
  constructor
  · intro o jb ho hjb
    subst ho
    have hj : (readOptions env (some o)).javaBitmap = some jb := by simp [readOptions, hjb]
    have hal : (decodeArgsOf env brdHandle x y w h (some o) inBitmapHandle
        colorSpaceHandle).allocator
        = BRDAllocator.recycleAlloc (some inBitmapHandle)
            (env.toBitmap inBitmapHandle).getAllocationByteCount := by
      simp [decodeArgsOf, hj]
    have hpre : (!(readOptions env (some o)).requireUnpremul) = o.inPremultiplied := by
      simp [readOptions]
    refine ⟨?_, ?_, fun hret => ?_⟩
    · rw [decodeRegionCalls_nativeDecodeRegion]
      simp [hal]
    · rw [decodeRegionCalls_nativeDecodeRegion]
      intro a ha b hb hm
      simp only [List.mem_singleton] at ha
      subst ha
      obtain ⟨hr, ht, he⟩ := decode_success_shape env brdHandle x y w h (some o)
        inBitmapHandle colorSpaceHandle b hb (Or.inr hm)
      rw [finishDecode_reuse _ _ _ _ _ jb hj] at hr ht
      rw [hal, hpre] at ht
      refine ⟨hr, ?_, he⟩
      rw [ht, List.append_assoc]
      rfl
    · obtain ⟨b, -, -, -, hr, ht, -⟩ :=
        ret_some_shape env brdHandle x y w h (some o) inBitmapHandle colorSpaceHandle hret
      rw [finishDecode_reuse _ _ _ _ _ jb hj] at hr ht
      rw [hal, hpre] at ht
      refine ⟨hr, decodeArgsOf env brdHandle x y w h (some o) inBitmapHandle colorSpaceHandle,
        ?_⟩
      rw [ht, List.append_assoc]
      rfl
  · intro hno
    have hj := readOptions_javaBitmap_none env options hno
    have hal : (decodeArgsOf env brdHandle x y w h options inBitmapHandle
        colorSpaceHandle).allocator = BRDAllocator.heapAlloc := by
      simp [decodeArgsOf, hj]
    have hwarn : warningOf env options inBitmapHandle = [] := by simp [warningOf, hj]
    refine ⟨?_, ?_, fun hret => ?_⟩
    · rw [decodeRegionCalls_nativeDecodeRegion]
      simp [hal]
    · rw [decodeRegionCalls_nativeDecodeRegion]
      intro a ha b hb hm
      simp only [List.mem_singleton] at ha
      subst ha
      obtain ⟨hr, ht, he⟩ := decode_success_shape env brdHandle x y w h options
        inBitmapHandle colorSpaceHandle b hb hm
      rw [finishDecode_fresh _ _ _ _ _ hj] at hr ht
      rw [hwarn] at ht
      exact ⟨hr, ht, he⟩
    · obtain ⟨b, hd, -, -, hr, ht, -⟩ :=
        ret_some_shape env brdHandle x y w h options inBitmapHandle colorSpaceHandle hret
      rw [finishDecode_fresh _ _ _ _ _ hj] at hr ht
      rw [hwarn] at ht
      refine ⟨decodeArgsOf env brdHandle x y w h options inBitmapHandle colorSpaceHandle, b,
        _, hd, hr, ht, ?_⟩
      intro o ho
      rw [hno o ho]
      exact hret

/-- The two halves of C6 on concrete calls that ask for the hardware config.  With the
reusable bitmap 42 the decode succeeds and the call returns object 42 itself.  Without
a reusable bitmap the heap allocator is used, the decode succeeds, and the call returns
the object `createBitmap` made from the hardware bitmap (object 6002), after
`allocateHardwareBitmap` and `createBitmap` and nothing else. -/
theorem C6_allocator_and_aliasing_witness :
    (nativeDecodeRegion (sampleRuntime kRGBA_F16_SkColorType true true false false 0)
        1 0 0 100 100 (some (sampleOptions (some 1007) (some 42))) 9 0).ret = some 42 ∧
    (decodeRegionCalls
        (nativeDecodeRegion (sampleRuntime kRGBA_F16_SkColorType true true false false 0)
          1 0 0 100 100 (some (sampleOptions (some 1007) none)) 9 0).trace).map
        DecodeRegionArgs.allocator = [BRDAllocator.heapAlloc] ∧
    (nativeDecodeRegion (sampleRuntime kRGBA_F16_SkColorType true true false false 0)
        1 0 0 100 100 (some (sampleOptions (some 1007) none)) 9 0).ret = some 6002 ∧
    (nativeDecodeRegion (sampleRuntime kRGBA_F16_SkColorType true true false false 0)
        1 0 0 100 100 (some (sampleOptions (some 1007) none)) 9 0).trace
      = [Event.decodeRegion
          { allocator := BRDAllocator.heapAlloc, subset := SkIRect.MakeXYWH 0 0 100 100,
            sampleSize := 1, colorType := kRGBA_F16_SkColorType, requireUnpremul := false,
            colorSpace := none },
         Event.allocateHardwareBitmap ⟨100, 100⟩,
         Event.createBitmap (NativePixels.hardwareBitmap ⟨100, 100⟩) 2] :=
  ⟨(((C6_allocator_and_aliasing (sampleRuntime kRGBA_F16_SkColorType true true false false 0)
      1 0 0 100 100 (some (sampleOptions (some 1007) (some 42))) 9 0).1
      (sampleOptions (some 1007) (some 42)) 42 rfl rfl).2.1
      { allocator := BRDAllocator.recycleAlloc (some 9) 40000,
        subset := SkIRect.MakeXYWH 0 0 100 100, sampleSize := 1,
        colorType := kRGB_565_SkColorType, requireUnpremul := false, colorSpace := none }
      (by decide) ⟨100, 100⟩ (by decide) (by decide)).1,
   ((C6_allocator_and_aliasing (sampleRuntime kRGBA_F16_SkColorType true true false false 0)
      1 0 0 100 100 (some (sampleOptions (some 1007) none)) 9 0).2
      (fun o ho => by cases ho; rfl)).1,
   ((((C6_allocator_and_aliasing (sampleRuntime kRGBA_F16_SkColorType true true false false 0)
      1 0 0 100 100 (some (sampleOptions (some 1007) none)) 9 0).2
      (fun o ho => by cases ho; rfl)).2.1
      { allocator := BRDAllocator.heapAlloc, subset := SkIRect.MakeXYWH 0 0 100 100,
        sampleSize := 1, colorType := kRGBA_F16_SkColorType, requireUnpremul := false,
        colorSpace := none }
      (by decide) ⟨100, 100⟩ (by decide) (Or.inr (by decide))).1),
   ((((C6_allocator_and_aliasing (sampleRuntime kRGBA_F16_SkColorType true true false false 0)
      1 0 0 100 100 (some (sampleOptions (some 1007) none)) 9 0).2
      (fun o ho => by cases ho; rfl)).2.1
      { allocator := BRDAllocator.heapAlloc, subset := SkIRect.MakeXYWH 0 0 100 100,
        sampleSize := 1, colorType := kRGBA_F16_SkColorType, requireUnpremul := false,
        colorSpace := none }
      (by decide) ⟨100, 100⟩ (by decide) (Or.inr (by decide))).2.1)⟩

/-- C7 (colour space after the final pixel format).  Let `f` be `finalColorType`: the
recycled bitmap's colour type when the options carry a reusable bitmap, and the result
of the hardware capability fallback on `computeOutputColorType` otherwise.  Every call
hands `decodeRegion` the colour type `f` and the colour space
`computeOutputColorSpace f (requested colour space)`, and on success with options the
object written to `outColorSpace` is `getColorSpace` of that colour space and `f`. -/
theorem C7_color_space_after_color_type (env : Runtime) (brdHandle x y w h : Int)
    (options : Option Options) (inBitmapHandle colorSpaceHandle : Int) :
    (∃ a, decodeRegionCalls
          (nativeDecodeRegion env brdHandle x y w h options inBitmapHandle
            colorSpaceHandle).trace = [a] ∧
        a.colorType = finalColorType env brdHandle options inBitmapHandle ∧
        a.colorSpace = (env.toBrd brdHandle).computeOutputColorSpace
          (finalColorType env brdHandle options inBitmapHandle)
          (env.getNativeColorSpace colorSpaceHandle)) ∧
    ((nativeDecodeRegion env brdHandle x y w h options inBitmapHandle
        colorSpaceHandle).ret ≠ none →
      ∀ o1, (nativeDecodeRegion env brdHandle x y w h options inBitmapHandle
          colorSpaceHandle).options = some o1 →
        o1.outColorSpace = env.getColorSpace
          ((env.toBrd brdHandle).computeOutputColorSpace
            (finalColorType env brdHandle options inBitmapHandle)
            (env.getNativeColorSpace colorSpaceHandle))
          (finalColorType env brdHandle options inBitmapHandle)) ∧
    (∀ o jb, options = some o → o.inBitmap = some jb →
      finalColorType env brdHandle options inBitmapHandle
        = (env.toBitmap inBitmapHandle).info.colorType) := by
  refine ⟨⟨_, decodeRegionCalls_nativeDecodeRegion _ _ _ _ _ _ _ _ _, rfl, rfl⟩, ?_, ?_⟩
  · intro hret o1 ho1
    obtain ⟨b, -, hm, hopt, -, -, -⟩ :=
      ret_some_shape env brdHandle x y w h options inBitmapHandle colorSpaceHandle hret
    rw [hopt] at ho1
    cases options with
    | none => simp at ho1
    | some o =>
      have hm1 := hm (by simp)
      simp only [Option.map_some', Option.some.injEq] at ho1
      rw [writeSuccess_of_no_exception _ _ _ _ _ _ _ hm1] at ho1
      subst ho1
      rfl
  · intro o jb ho hjb
    subst ho
    simp [finalColorType, readOptions, hjb]

/-- C7 on a successful decode into an RGB_565 reusable bitmap with the requested
colour space 2: `outColorSpace` is the object for colour space 2 and RGB_565. -/
theorem C7_color_space_after_color_type_witness :
    (nativeDecodeRegion (sampleRuntime kRGBA_F16_SkColorType true true false false 0)
        1 0 0 100 100 (some (sampleOptions (some 1007) (some 42))) 9 2).ret ≠ none ∧
    ∀ o1, (nativeDecodeRegion (sampleRuntime kRGBA_F16_SkColorType true true false false 0)
        1 0 0 100 100 (some (sampleOptions (some 1007) (some 42))) 9 2).options = some o1 →
      o1.outColorSpace = some 3203 :=
  ⟨by decide,
   (C7_color_space_after_color_type (sampleRuntime kRGBA_F16_SkColorType true true false false 0)
      1 0 0 100 100 (some (sampleOptions (some 1007) (some 42))) 9 2).2.1 (by decide)⟩

/-- C8 (construction from a file descriptor).  For a non-null file-descriptor object:
when `fstat` answers -1 the call throws the I/O error "broken file descriptor" and
returns null, and neither `SkData::MakeFromFD` nor the decoder factory has run; when
`fstat` answers anything else the call is `createBitmapRegionDecoder` on the data
read from the descriptor.  `createBitmapRegionDecoder` throws an I/O error and returns
null exactly when the factory yields no decoder. -/
theorem C8_file_descriptor (env : Runtime) (fd : JavaObject) :
    (env.fstat (env.jniGetFDFromFileDescriptor fd) = -1 →
      (nativeNewInstanceFromFileDescriptor env (some fd)).ret = none ∧
      (nativeNewInstanceFromFileDescriptor env (some fd)).exceptionPending = true ∧
      (nativeNewInstanceFromFileDescriptor env (some fd)).trace
        = [Event.fstat (env.jniGetFDFromFileDescriptor fd),
           Event.doThrowIOE "broken file descriptor"] ∧
      (∀ d, Event.makeFromFD d ∉ (nativeNewInstanceFromFileDescriptor env (some fd)).trace) ∧
      (∀ data, Event.brdMake data ∉ (nativeNewInstanceFromFileDescriptor env (some fd)).trace)) ∧
    (env.fstat (env.jniGetFDFromFileDescriptor fd) ≠ -1 →
      (nativeNewInstanceFromFileDescriptor env (some fd)).ret
        = (createBitmapRegionDecoder env
            (env.makeFromFD (env.jniGetFDFromFileDescriptor fd))).ret ∧
      (nativeNewInstanceFromFileDescriptor env (some fd)).exceptionPending
        = (createBitmapRegionDecoder env
            (env.makeFromFD (env.jniGetFDFromFileDescriptor fd))).exceptionPending ∧
      (nativeNewInstanceFromFileDescriptor env (some fd)).trace
        = [Event.fstat (env.jniGetFDFromFileDescriptor fd),
           Event.makeFromFD (env.jniGetFDFromFileDescriptor fd)] ++
          (createBitmapRegionDecoder env
            (env.makeFromFD (env.jniGetFDFromFileDescriptor fd))).trace) ∧
    (∀ data,
      ((∃ msg, Event.doThrowIOE msg ∈ (createBitmapRegionDecoder env data).trace) ∧
        (createBitmapRegionDecoder env data).ret = none)
      ↔ env.brdMake data = none) := by
  refine ⟨fun hs => ?_, fun hs => ?_, fun data => ?_⟩
  · simp [nativeNewInstanceFromFileDescriptor, hs, nullObjectReturn]
  · simp [nativeNewInstanceFromFileDescriptor, hs]
  · cases hb : env.brdMake data <;>
      simp [createBitmapRegionDecoder, hb, nullObjectReturn]

/-- C8 on a descriptor whose `fstat` fails, and on descriptor 3 whose `fstat` succeeds
and whose data the factory accepts (the Java decoder object 7001 is returned). -/
theorem C8_file_descriptor_witness :
    (nativeNewInstanceFromFileDescriptor
        (sampleRuntime kN32_SkColorType true true false false (-1)) (some 3)).ret = none ∧
    (nativeNewInstanceFromFileDescriptor
        (sampleRuntime kN32_SkColorType true true false false 0) (some 3)).ret = some 7001 :=
  ⟨((C8_file_descriptor (sampleRuntime kN32_SkColorType true true false false (-1)) 3).1
      (by decide)).1,
   ((C8_file_descriptor (sampleRuntime kN32_SkColorType true true false false 0) 3).2.1
      (by decide)).1.trans (by decide)⟩

/-- C9 (an immutable reusable bitmap is advisory only).  Take two runs of
`nativeDecodeRegion` on the same arguments, in runtimes that differ only in the
immutable flag of the native bitmap behind `inBitmapHandle`.  Both make the same
`decodeRegion` call (allocator, subset, sample size, colour type, unpremultiplied flag
and colour space), return the same object, leave the same options and the same
pending-exception state; the trace of the immutable run is the trace of the mutable
run with the warning in front when the options carry a reusable bitmap, and the very
same trace when they do not. -/
theorem C9_immutable_is_advisory (env : Runtime) (brdHandle x y w h : Int)
    (options : Option Options) (inBitmapHandle colorSpaceHandle : Int) :
    decodeRegionCalls
        (nativeDecodeRegion (setImmutable env inBitmapHandle true) brdHandle x y w h options
          inBitmapHandle colorSpaceHandle).trace
      = decodeRegionCalls
        (nativeDecodeRegion (setImmutable env inBitmapHandle false) brdHandle x y w h options
          inBitmapHandle colorSpaceHandle).trace ∧
    (nativeDecodeRegion (setImmutable env inBitmapHandle true) brdHandle x y w h options
        inBitmapHandle colorSpaceHandle).ret
      = (nativeDecodeRegion (setImmutable env inBitmapHandle false) brdHandle x y w h options
        inBitmapHandle colorSpaceHandle).ret ∧
    (nativeDecodeRegion (setImmutable env inBitmapHandle true) brdHandle x y w h options
        inBitmapHandle colorSpaceHandle).options
      = (nativeDecodeRegion (setImmutable env inBitmapHandle false) brdHandle x y w h options
        inBitmapHandle colorSpaceHandle).options ∧
    (nativeDecodeRegion (setImmutable env inBitmapHandle true) brdHandle x y w h options
        inBitmapHandle colorSpaceHandle).exceptionPending
      = (nativeDecodeRegion (setImmutable env inBitmapHandle false) brdHandle x y w h options
        inBitmapHandle colorSpaceHandle).exceptionPending ∧
    ((∀ o, options = some o → o.inBitmap = none) →
      (nativeDecodeRegion (setImmutable env inBitmapHandle true) brdHandle x y w h options
          inBitmapHandle colorSpaceHandle).trace
        = (nativeDecodeRegion (setImmutable env inBitmapHandle false) brdHandle x y w h options
          inBitmapHandle colorSpaceHandle).trace) ∧
    (∀ o jb, options = some o → o.inBitmap = some jb →
      (nativeDecodeRegion (setImmutable env inBitmapHandle true) brdHandle x y w h options
          inBitmapHandle colorSpaceHandle).trace
        = Event.logW "Warning: Reusing an immutable bitmap as an image decoder target." ::
          (nativeDecodeRegion (setImmutable env inBitmapHandle false) brdHandle x y w h options
            inBitmapHandle colorSpaceHandle).trace) := by
  obtain ⟨ret, opts, exc, rest, h1, h0⟩ :=
    nativeDecodeRegion_setImmutable env brdHandle x y w h options inBitmapHandle
      colorSpaceHandle true
  rw [h1, h0]
  refine ⟨?_, rfl, rfl, rfl, ?_, ?_⟩
  · simp [decodeRegionCalls_append, decodeRegionCalls_warningOf]
  · intro hno
    have hj := readOptions_javaBitmap_none env options hno
    simp [warningOf, readOptions_setImmutable, hj]
  · intro o jb ho hjb
    subst ho
    simp [warningOf, readOptions, hjb, setImmutable]

/-- C9 on a successful decode into the reusable bitmap 42: the immutable run differs
from the mutable run by the warning only. -/
theorem C9_immutable_is_advisory_witness :
    (nativeDecodeRegion
        (setImmutable (sampleRuntime kN32_SkColorType true true false false 0) 9 true)
        1 0 0 100 100 (some (sampleOptions (some 1005) (some 42))) 9 0).trace
      = Event.logW "Warning: Reusing an immutable bitmap as an image decoder target." ::
        (nativeDecodeRegion
          (setImmutable (sampleRuntime kN32_SkColorType true true false false 0) 9 false)
          1 0 0 100 100 (some (sampleOptions (some 1005) (some 42))) 9 0).trace :=
  (C9_immutable_is_advisory (sampleRuntime kN32_SkColorType true true false false 0)
    1 0 0 100 100 (some (sampleOptions (some 1005) (some 42))) 9 0).2.2.2.2.2
    (sampleOptions (some 1005) (some 42)) 42 rfl rfl

/-- C10 (decode failure leaves the failure values).  When the `decodeRegion` call made
by `nativeDecodeRegion` reports failure, the call returns null; its only effects are
the optional warning and the `decodeRegion` call itself, so `copyIfNecessary`,
`reinitBitmap`, `allocateHardwareBitmap`, `createBitmap` and `nativeClean` do not run;
and an options object, whatever its output fields held, has `outWidth = -1`,
`outHeight = -1` and null `outMimeType`, `outConfig`, `outColorSpace` afterwards. -/
theorem C10_decode_failure (env : Runtime) (brdHandle x y w h : Int)
    (options : Option Options) (inBitmapHandle colorSpaceHandle : Int)
    (hfail : ∀ a ∈ decodeRegionCalls
        (nativeDecodeRegion env brdHandle x y w h options inBitmapHandle
          colorSpaceHandle).trace, (env.toBrd brdHandle).decodeRegion a = none) :
    (nativeDecodeRegion env brdHandle x y w h options inBitmapHandle colorSpaceHandle).ret
      = none ∧
    (∀ e ∈ (nativeDecodeRegion env brdHandle x y w h options inBitmapHandle
        colorSpaceHandle).trace, (∃ m, e = Event.logW m) ∨ (∃ a, e = Event.decodeRegion a)) ∧
    (nativeDecodeRegion env brdHandle x y w h options inBitmapHandle
        colorSpaceHandle).exceptionPending = false ∧
    (nativeDecodeRegion env brdHandle x y w h options inBitmapHandle colorSpaceHandle).options
      = options.map initFailure ∧
    (∀ o, options = some o →
      ∃ o1, (nativeDecodeRegion env brdHandle x y w h options inBitmapHandle
          colorSpaceHandle).options = some o1 ∧
        o1.outWidth = -1 ∧ o1.outHeight = -1 ∧ o1.outMimeType = none ∧ o1.outConfig = none ∧
        o1.outColorSpace = none) := by
  have hd : (env.toBrd brdHandle).decodeRegion
      (decodeArgsOf env brdHandle x y w h options inBitmapHandle colorSpaceHandle) = none := by
    apply hfail
    rw [decodeRegionCalls_nativeDecodeRegion]
    exact List.mem_singleton.mpr rfl
  rw [nativeDecodeRegion_eq, hd]
  refine ⟨rfl, ?_, rfl, rfl, ?_⟩
  · intro e he
    simp only [List.mem_append, List.mem_singleton] at he
    rcases he with he | he
    · left
      unfold warningOf at he
      split at he
      · exact ⟨_, List.mem_singleton.mp he⟩
      · simp at he
    · exact Or.inr ⟨_, he⟩
  · intro o ho
    subst ho
    exact ⟨initFailure o, rfl, rfl, rfl, rfl, rfl, rfl⟩

/-- C10 on a subset that leaves the image (x = 3950, width 100): the decode fails,
null is returned and the stale output fields 640 x 480 are replaced by -1. -/
theorem C10_decode_failure_witness :
    (nativeDecodeRegion (sampleRuntime kN32_SkColorType true true false false 0)
        1 3950 0 100 100 (some (sampleOptions (some 1005) (some 42))) 9 0).ret = none ∧
    (nativeDecodeRegion (sampleRuntime kN32_SkColorType true true false false 0)
        1 3950 0 100 100 (some (sampleOptions (some 1005) (some 42))) 9 0).options
      = some (initFailure (sampleOptions (some 1005) (some 42))) :=
  ⟨(C10_decode_failure (sampleRuntime kN32_SkColorType true true false false 0)
      1 3950 0 100 100 (some (sampleOptions (some 1005) (some 42))) 9 0 (by decide)).1,
   (C10_decode_failure (sampleRuntime kN32_SkColorType true true false false 0)
      1 3950 0 100 100 (some (sampleOptions (some 1005) (some 42))) 9 0 (by decide)).2.2.2.1⟩

end HwuiJni
